import Mathlib

/-!
Verification of the sketch-to-image Lambda handler
(src/drawing-app/lambda_function.py).

The Python code is shallowly embedded: JSON-like Python values become the
inductive type PyVal, the handler and its helpers become Lean functions,
the two external effects (the Gemini HTTP call and the S3 upload) become
explicit outcome parameters, and every early return becomes a branch of a
pure function returning a Response record.
-/

set_option autoImplicit false

/-- Model of a Python JSON-like value as produced by json.loads and carried in
Lambda events: None, booleans, integers, strings, lists and string-keyed dicts.
(Float literals are not modelled; no code path under verification produces or
consumes one.) -/
inductive PyVal where
  | none
  | bool (b : Bool)
  | int (n : Int)
  | str (s : String)
  | list (xs : List PyVal)
  | dict (kvs : List (String × PyVal))

/-- Python dict lookup, last binding wins (matching dict insertion semantics
when an association list carries duplicate keys). -/
def pyDictGet (kvs : List (String × PyVal)) (k : String) : Option PyVal :=
  kvs.foldl (fun acc kv => if kv.1 = k then some kv.2 else acc) Option.none

/-- Python truthiness of a value. -/
def pyTruthy : PyVal → Bool
  | .none => false
  | .bool b => b
  | .int n => n != 0
  | .str s => s != ""
  | .list xs => !xs.isEmpty
  | .dict kvs => !kvs.isEmpty

/-- Python len(); Option.none models the TypeError raised on unsized values. -/
def pyLen : PyVal → Option Nat
  | .str s => some s.length
  | .list xs => some xs.length
  | .dict kvs => some kvs.length
  | _ => Option.none

/-- Python type name of a value, used for the TypeError message of len(). -/
def pyTypeName : PyVal → String
  | .none => "NoneType"
  | .bool _ => "bool"
  | .int _ => "int"
  | .str _ => "str"
  | .list _ => "list"
  | .dict _ => "dict"

/-- Message of the TypeError raised by len() on an unsized value. -/
def lenErrorMsg (v : PyVal) : String :=
  "object of type " ++ pyTypeName v ++ " has no len()"

/-- Python str.split(sep) on a single-character separator: splits at every
occurrence of the separator, keeping empty pieces. -/
def splitChar (sep : Char) : List Char → List (List Char)
  | [] => [[]]
  | c :: cs =>
    let r := splitChar sep cs
    if c = sep then [] :: r
    else (c :: r.headD []) :: r.tail

/-- Number of occurrences of a character in a character list. -/
def countChar (c : Char) : List Char → Nat
  | [] => 0
  | a :: rest => (if a = c then 1 else 0) + countChar c rest

/-- Python str.split lifted to String. -/
def pySplit (sep : Char) (s : String) : List String :=
  (splitChar sep s.toList).map (fun cs => String.mk cs)

/-- Python str.startswith, computed on the character lists. -/
def pyStartsWith (s pre : String) : Bool :=
  pre.toList.isPrefixOf s.toList

/-- Opening brace character. -/
def lbrace : Char := Char.ofNat 123

/-- Closing brace character. -/
def rbrace : Char := Char.ofNat 125

/-- One hexadecimal digit (lower case), as used by the json module. -/
def hexDigit (n : Nat) : Char :=
  if n % 16 < 10 then Char.ofNat (48 + n % 16) else Char.ofNat (87 + n % 16)

/-- Four hexadecimal digits of a code unit, as used in a json \uXXXX escape. -/
def hex4 (n : Nat) : String :=
  String.mk [hexDigit (n / 4096), hexDigit (n / 256), hexDigit (n / 16), hexDigit n]

/-- Escaping of a single character by json.dumps with its default
ensure_ascii=True: characters outside the printable ASCII range 0x20..0x7e are
escaped, with surrogate pairs above 0xffff. -/
def jsonEscapeChar (c : Char) : String :=
  if c = '"' then "\\\""
  else if c = '\\' then "\\\\"
  else if c = '\n' then "\\n"
  else if c = '\t' then "\\t"
  else if c = '\r' then "\\r"
  else if c = Char.ofNat 8 then "\\b"
  else if c = Char.ofNat 12 then "\\f"
  else if c.toNat < 32 ∨ 127 ≤ c.toNat then
    if c.toNat < 65536 then "\\u" ++ hex4 c.toNat
    else "\\u" ++ hex4 (55296 + (c.toNat - 65536) / 1024)
         ++ "\\u" ++ hex4 (56320 + (c.toNat - 65536) % 1024)
  else String.singleton c

/-- Body of a json string literal. -/
def jsonEscape (s : String) : String :=
  (s.toList.map jsonEscapeChar).foldl (fun a b => a ++ b) ""

mutual

/-- json.dumps with its default separators and ensure_ascii=True, restricted to
the PyVal fragment. -/
def jsonDumps : PyVal → String
  | .none => "null"
  | .bool b => if b then "true" else "false"
  | .int n => toString n
  | .str s => "\"" ++ jsonEscape s ++ "\""
  | .list xs => "[" ++ jsonDumpsList xs ++ "]"
  | .dict kvs => String.singleton lbrace ++ jsonDumpsDict kvs ++ String.singleton rbrace

/-- Comma-separated dump of the elements of a json array. -/
def jsonDumpsList : List PyVal → String
  | [] => ""
  | [x] => jsonDumps x
  | x :: y :: xs => jsonDumps x ++ ", " ++ jsonDumpsList (y :: xs)

/-- Comma-separated dump of the members of a json object. -/
def jsonDumpsDict : List (String × PyVal) → String
  | [] => ""
  | [(k, v)] => "\"" ++ jsonEscape k ++ "\": " ++ jsonDumps v
  | (k, v) :: m :: kvs =>
    "\"" ++ jsonEscape k ++ "\": " ++ jsonDumps v ++ ", " ++ jsonDumpsDict (m :: kvs)

end

/-- Whitespace skipping of the json parser. -/
def skipWs : List Char → List Char
  | c :: cs => if c = ' ' ∨ c = '\t' ∨ c = '\n' ∨ c = '\r' then skipWs cs else c :: cs
  | [] => []

/-- Numeric value of a list of decimal digits. -/
def digitsToNat : List Char → Nat
  | [] => 0
  | ds => ds.foldl (fun a c => a * 10 + (c.toNat - 48)) 0

/-- Decoded character of a json backslash escape, when it is a one-character
escape. -/
def jsonUnescape1 (e : Char) : Option Char :=
  if e = '"' then some '"'
  else if e = '\\' then some '\\'
  else if e = '/' then some '/'
  else if e = 'n' then some '\n'
  else if e = 't' then some '\t'
  else if e = 'r' then some '\r'
  else if e = 'b' then some (Char.ofNat 8)
  else if e = 'f' then some (Char.ofNat 12)
  else Option.none

/-- Value of one hexadecimal digit character. -/
def hexVal (c : Char) : Option Nat :=
  if '0' ≤ c ∧ c ≤ '9' then some (c.toNat - 48)
  else if 'a' ≤ c ∧ c ≤ 'f' then some (c.toNat - 87)
  else if 'A' ≤ c ∧ c ≤ 'F' then some (c.toNat - 55)
  else Option.none

/-- Body of a json string literal after the opening quote; returns the decoded
string and the input after the closing quote. -/
def parseStrBody : Nat → List Char → Option (String × List Char)
  | 0, _ => Option.none
  | _, [] => Option.none
  | fuel + 1, c :: rest =>
    if c = '"' then some ("", rest)
    else if c = '\\' then
      match rest with
      | [] => Option.none
      | e :: rest2 =>
        match jsonUnescape1 e with
        | some d =>
          (parseStrBody fuel rest2).map (fun p => (String.singleton d ++ p.1, p.2))
        | Option.none =>
          if e = 'u' then
            match rest2 with
            | a :: b :: c2 :: d2 :: rest3 =>
              match hexVal a, hexVal b, hexVal c2, hexVal d2 with
              | some ha, some hb, some hc, some hd =>
                (parseStrBody fuel rest3).map
                  (fun p =>
                    (String.singleton (Char.ofNat (ha * 4096 + hb * 256 + hc * 16 + hd)) ++ p.1,
                     p.2))
              | _, _, _, _ => Option.none
            | _ => Option.none
          else Option.none
    else (parseStrBody fuel rest).map (fun p => (String.singleton c ++ p.1, p.2))

/-- A json number token; floats are rejected (unmodelled; no verified code path
uses one). -/
def parseNum (cs : List Char) : Option (PyVal × List Char) :=
  let (neg, cs1) :=
    match cs with
    | c :: r => if c = '-' then (true, r) else (false, cs)
    | [] => (false, ([] : List Char))
  let ds := cs1.takeWhile Char.isDigit
  let rest := cs1.dropWhile Char.isDigit
  if ds.isEmpty then Option.none
  else
    match rest with
    | c :: _ =>
      if c = '.' ∨ c = 'e' ∨ c = 'E' then Option.none
      else some (.int (if neg then -(digitsToNat ds : Int) else (digitsToNat ds : Int)), rest)
    | [] => some (.int (if neg then -(digitsToNat ds : Int) else (digitsToNat ds : Int)), [])

mutual

/-- One json value, fuel-bounded recursive descent; models json.loads on the
int/str/bool/null/array/object fragment. -/
def parseValue : Nat → List Char → Option (PyVal × List Char)
  | 0, _ => Option.none
  | fuel + 1, cs0 =>
    match skipWs cs0 with
    | [] => Option.none
    | c :: rest =>
      if c = '"' then (parseStrBody fuel rest).map (fun p => (.str p.1, p.2))
      else if c = lbrace then
        match skipWs rest with
        | d :: rest2 =>
          if d = rbrace then some (.dict [], rest2)
          else (parseMembers fuel (d :: rest2)).map (fun p => (.dict p.1, p.2))
        | [] => Option.none
      else if c = '[' then
        match skipWs rest with
        | d :: rest2 =>
          if d = ']' then some (.list [], rest2)
          else (parseElems fuel (d :: rest2)).map (fun p => (.list p.1, p.2))
        | [] => Option.none
      else if ['t', 'r', 'u', 'e'].isPrefixOf (c :: rest) then
        some (.bool true, (c :: rest).drop 4)
      else if ['f', 'a', 'l', 's', 'e'].isPrefixOf (c :: rest) then
        some (.bool false, (c :: rest).drop 5)
      else if ['n', 'u', 'l', 'l'].isPrefixOf (c :: rest) then
        some (.none, (c :: rest).drop 4)
      else if c = '-' ∨ c.isDigit then parseNum (c :: rest)
      else Option.none

/-- Nonempty member list of a json object, up to and including the closing
brace. -/
def parseMembers : Nat → List Char → Option (List (String × PyVal) × List Char)
  | 0, _ => Option.none
  | fuel + 1, cs =>
    match skipWs cs with
    | c :: rest =>
      if c = '"' then
        match parseStrBody fuel rest with
        | some (k, r1) =>
          match skipWs r1 with
          | d :: r2 =>
            if d = ':' then
              match parseValue fuel r2 with
              | some (v, r3) =>
                match skipWs r3 with
                | e :: r4 =>
                  if e = ',' then
                    (parseMembers fuel r4).map (fun p => ((k, v) :: p.1, p.2))
                  else if e = rbrace then some ([(k, v)], r4)
                  else Option.none
                | [] => Option.none
              | Option.none => Option.none
            else Option.none
          | [] => Option.none
        | Option.none => Option.none
      else Option.none
    | [] => Option.none

/-- Nonempty element list of a json array, up to and including the closing
bracket. -/
def parseElems : Nat → List Char → Option (List PyVal × List Char)
  | 0, _ => Option.none
  | fuel + 1, cs =>
    match parseValue fuel cs with
    | some (v, r1) =>
      match skipWs r1 with
      | e :: r2 =>
        if e = ',' then (parseElems fuel r2).map (fun p => (v :: p.1, p.2))
        else if e = ']' then some ([v], r2)
        else Option.none
      | [] => Option.none
    | Option.none => Option.none

end

/-- json.loads on the modelled fragment: parse one value then require only
whitespace to follow. -/
def jsonLoads (s : String) : Except String PyVal :=
  match parseValue (s.length + 2) s.toList with
  | some (v, rest) => if skipWs rest = [] then .ok v else .error "Extra data"
  | Option.none => .error "Expecting value"

/-- Read-only process configuration: the two environment variables read by the
handler (os.environ.get returns Option.none for an unset variable). -/
structure Config where
  apiKey : Option String
  bucket : Option String

/-- Terminal HTTP-style response record returned by the handler. -/
structure Response where
  statusCode : Nat
  headers : List (String × String)
  body : String
deriving DecidableEq

/-- cors_headers (lambda_function.py lines 302-309). -/
def cors_headers : List (String × String) :=
  [("Content-Type", "application/json"),
   ("Access-Control-Allow-Origin", "*"),
   ("Access-Control-Allow-Headers", "Content-Type,x-api-key,Authorization"),
   ("Access-Control-Allow-Methods", "POST,OPTIONS")]

/-- error_response (lambda_function.py lines 293-299). -/
def error_response (message : String) (status_code : Nat) : Response :=
  { statusCode := status_code,
    headers := cors_headers,
    body := jsonDumps (.dict [("success", .bool false), ("error", .str message)]) }

/-- style_prompts table (lambda_function.py lines 160-171). -/
def style_prompts : List (String × String) :=
  [("realistic", "photorealistic, highly detailed, professional photography, natural lighting, 8k quality"),
   ("anime", "anime style, vibrant colors, Japanese animation aesthetic, cel-shaded, manga inspired"),
   ("cartoon", "cartoon style, bold colors, playful illustration, animated feel, exaggerated features"),
   ("oil-painting", "oil painting style, classical art, textured brushstrokes, rich colors, artistic masterpiece"),
   ("watercolor", "watercolor painting, soft washes, delicate colors, artistic, painted on paper texture"),
   ("sketch", "detailed pencil sketch, hand-drawn, artistic line work, shading and hatching, graphite drawing"),
   ("3d-render", "3D rendered, computer graphics, smooth surfaces, professional CGI, octane render, unreal engine"),
   ("pixel-art", "pixel art style, retro gaming aesthetic, 8-bit or 16-bit graphics, pixelated, sprite art"),
   ("cyberpunk", "cyberpunk style, neon lights, futuristic, sci-fi aesthetic, dark with bright accents, technological"),
   ("fantasy", "fantasy art style, magical atmosphere, ethereal, epic illustration, mystical and enchanting")]

/-- style_prompts.get(style, "high quality artistic style") where style is the
raw request value: an unhashable value (list or dict) raises TypeError
(modelled as the error case), any other value that is not a known string key
falls back to the default phrase. -/
def styleDesc : PyVal → Except Unit String
  | .list _ => .error ()
  | .dict _ => .error ()
  | .str s => .ok ((style_prompts.lookup s).getD "high quality artistic style")
  | _ => .ok "high quality artistic style"

/-- Outcome of the single outbound HTTPS call to the generation API:
an HTTPError (caught at lambda_function.py line 249), any other transport or
runtime error (caught at line 254), or a 2xx reply whose body parsed as the
given json value. -/
inductive ApiOutcome where
  | httpError
  | transportError
  | ok (data : PyVal)

/-- Outcome of the two S3 operations inside upload_to_s3: a presigned URL, or
any raised persistence error (caught at lambda_function.py line 288). -/
inductive S3Outcome where
  | ok (url : String)
  | failure

/-- Contiguous-sublist test, used for the Python substring membership test. -/
def containsSub (needle : List Char) : List Char → Bool
  | [] => needle.isEmpty
  | c :: rest => needle.isPrefixOf (c :: rest) || containsSub needle rest

/-- Python membership test with a string needle, as in the expression
(quote inlineData in p): key membership for a dict, element membership for a
list, substring test for a str; TypeError (error) otherwise. -/
def pyContainsStr : PyVal → String → Except Unit Bool
  | .dict kvs, k => .ok (pyDictGet kvs k).isSome
  | .list xs, k => .ok (xs.any (fun v => match v with | .str s2 => s2 = k | _ => false))
  | .str s, k => .ok (containsSub k.toList s.toList)
  | _, _ => .error ()

/-- Python subscript with a string key: dict lookup, KeyError (error) when the
key is absent, TypeError (error) on any non-dict value. -/
def pySubscriptStr : PyVal → String → Except Unit PyVal
  | .dict kvs, k =>
    match pyDictGet kvs k with
    | some v => .ok v
    | Option.none => .error ()
  | _, _ => .error ()

/-- The dict .get(key, default) method; AttributeError (error) on a non-dict
receiver. -/
def pyGetMethod : PyVal → String → PyVal → Except Unit PyVal
  | .dict kvs, k, d => .ok ((pyDictGet kvs k).getD d)
  | _, _, _ => .error ()

/-- Python subscript [0]: first element of a list, first character of a str;
error (KeyError, TypeError or IndexError) otherwise. -/
def pyIndexZero : PyVal → Except Unit PyVal
  | .list xs =>
    match xs with
    | x :: _ => .ok x
    | [] => .error ()
  | .str s =>
    match s.toList with
    | c :: _ => .ok (.str (String.singleton c))
    | [] => .error ()
  | _ => .error ()

/-- Python iteration over a value: elements of a list, characters of a str,
keys of a dict; TypeError (error) otherwise. -/
def pyIter : PyVal → Except Unit (List PyVal)
  | .list xs => .ok xs
  | .str s => .ok (s.toList.map (fun c => .str (String.singleton c)))
  | .dict kvs => .ok (kvs.map (fun kv => PyVal.str kv.1))
  | _ => .error ()

/-- Test of the generator filter at lambda_function.py lines 229-237: the part
has an inlineData member whose declared mimeType starts with image/. -/
def partIsImage (p : PyVal) : Except Unit Bool := do
  let c ← pyContainsStr p "inlineData"
  if c then
    let inner ← pySubscriptStr p "inlineData"
    let mt ← pyGetMethod inner "mimeType" (.str "")
    match mt with
    | .str s => pure (pyStartsWith s "image/")
    | _ => .error ()
  else pure false

/-- next(...) over the lazily filtered parts: the first part passing
partIsImage, Option.none when none does; an exception raised while testing a
part before the first match propagates. -/
def findImagePart : List PyVal → Except Unit (Option PyVal)
  | [] => .ok Option.none
  | p :: rest => do
    let b ← partIsImage p
    if b then .ok (some p) else findImagePart rest

/-- Response scan of generate_image_from_sketch (lambda_function.py lines
225-243): first candidate only, first image-typed part, truthy inline data;
gives some data on success, Option.none for the soft-failure paths, error for
any raised exception (caught at line 254). -/
def scanResponse (data : PyVal) : Except Unit (Option PyVal) := do
  let c ← pyContainsStr data "candidates"
  if c then
    let cands ← pySubscriptStr data "candidates"
    match pyLen cands with
    | Option.none => .error ()
    | some n =>
      if n > 0 then
        let first ← pyIndexZero cands
        let content ← pyGetMethod first "content" (.dict [])
        let partsV ← pyGetMethod content "parts" (.list [])
        let parts ← pyIter partsV
        let ip ← findImagePart parts
        match ip with
        | some p =>
          let inner ← pySubscriptStr p "inlineData"
          match inner with
          | .dict ikvs =>
            let d := (pyDictGet ikvs "data").getD .none
            if pyTruthy d then pure (some d) else pure Option.none
          | _ => .error ()
        | Option.none => pure Option.none
      else pure Option.none
  else pure Option.none

/-- generate_image_from_sketch (lambda_function.py lines 157-257): prompt
construction from the style table, then the API call whose network behaviour
is the outcome parameter; returns the pair (generated image or None, prompt),
with the empty prompt on the outer exception path (line 257). -/
def generate_image_from_sketch (api_key sketch_data : String) (style : PyVal)
    (mime_type : String) (outcome : ApiOutcome) : PyVal × String :=
  match styleDesc style with
  | .error _ => (.none, "")
  | .ok style_desc =>
    let full_prompt :=
      "Transform this sketch into a beautiful image, " ++ style_desc ++
        ", masterpiece quality, professional artwork"
    match outcome with
    | .httpError => (.none, full_prompt)
    | .transportError => (.none, "")
    | .ok data =>
      match scanResponse data with
      | .error _ => (.none, "")
      | .ok (some img) => (img, full_prompt)
      | .ok Option.none => (.none, full_prompt)

/-- upload_to_s3 (lambda_function.py lines 260-290): skip when the bucket
variable is unset or empty, absorb any raised persistence error into
Option.none, otherwise return the presigned URL. -/
def upload_to_s3 (image_base64 : PyVal) (style : PyVal) (bucket : Option String)
    (outcome : S3Outcome) : Option String :=
  match bucket with
  | Option.none => Option.none
  | some b =>
    if b = "" then Option.none
    else
      match outcome with
      | .ok url => some url
      | .failure => Option.none

/-- Python str() of a value, as interpolated by an f-string. Faithful for
None, booleans, integers and strings; containers (which no verified claim
reaches in an f-string) are approximated by their json dump. -/
def pyStrOf : PyVal → String
  | .str s => s
  | .none => "None"
  | .bool b => if b then "True" else "False"
  | .int n => toString n
  | v => jsonDumps v

/-- Event-to-body resolution of lambda_handler (lambda_function.py lines
26-58): a dict with a body field has that field parsed (string) or taken
directly (dict), any other body type is rejected; a dict without a body field
is itself the body; a non-dict event is rejected. -/
def resolve_body (event : PyVal) : Except Response PyVal :=
  match event with
  | .dict ekvs =>
    match pyDictGet ekvs "body" with
    | some body_content =>
      match body_content with
      | .str s =>
        match jsonLoads s with
        | .ok b => .ok b
        | .error e => .error (error_response ("Invalid JSON: " ++ e) 400)
      | .dict kvs => .ok (.dict kvs)
      | _ => .error (error_response "Invalid body format" 400)
    | Option.none => .ok (.dict ekvs)
  | _ => .error (error_response "Invalid event format" 400)

/-- Data-URL processing of lambda_handler (lambda_function.py lines 102-114):
with the data:image marker, split on every comma and require exactly two
parts, extracting the mime type from the original string (between the first
colon and the first semicolon); without the marker, default to image/png and
keep the payload verbatim. Returns (mime_type, working payload). -/
def decode_image (image_data : String) : Except Response (String × String) :=
  if pyStartsWith image_data "data:image" then
    let parts := pySplit ',' image_data
    if parts.length = 2 then
      .ok (((pySplit ':' ((pySplit ';' image_data).headD "")).getD 1 ""),
           parts.getD 1 "")
    else .error (error_response "Invalid data URL format" 400)
  else .ok ("image/png", image_data)

/-- Truthiness of the api_key read from the environment: unset or empty is
falsy. -/
def apiKeyTruthy : Option String → Bool
  | Option.none => false
  | some s => s != ""

/-- Success envelope of lambda_handler (lambda_function.py lines 134-149). -/
def success_response (prompt : String) (imageBase64 : String) (s3_url : Option String)
    (style : PyVal) : Response :=
  { statusCode := 200,
    headers := cors_headers,
    body := jsonDumps (.dict
      [("success", .bool true),
       ("data", .dict
         [("prompt", .str prompt),
          ("imageBase64", .str imageBase64),
          ("s3Url", match s3_url with | some u => .str u | Option.none => .none),
          ("style", style)])]) }

/-- Body of lambda_handler after event resolution (lambda_function.py lines
61-149): body-shape checks, extraction, the diagnostic len() log that raises
on a truthy unsized imageData (line 77, absorbed by the top-level handler as a
500), the api-key check, imageData validation in source order, data-URL
decoding, generation, upload, and the terminal envelope. -/
def handle_body (cfg : Config) (body : PyVal) (api : ApiOutcome) (s3 : S3Outcome) : Response :=
  match body with
  | .none => error_response "No request body" 400
  | .dict bkvs =>
    let image_data := (pyDictGet bkvs "imageData").getD .none
    let style := (pyDictGet bkvs "style").getD (.str "realistic")
    if pyTruthy image_data && (pyLen image_data).isNone then
      error_response (lenErrorMsg image_data) 500
    else if !apiKeyTruthy cfg.apiKey then
      error_response "GEMINI_API_KEY not configured" 500
    else if !pyTruthy image_data then
      error_response "No image data provided" 400
    else
      match image_data with
      | .str sdata =>
        if sdata.length < 10 then error_response "imageData is too short" 400
        else
          match decode_image sdata with
          | .error r => r
          | .ok (mime_type, payload) =>
            let g := generate_image_from_sketch (cfg.apiKey.getD "") payload style mime_type api
            if !pyTruthy g.1 then error_response "Failed to generate image" 500
            else
              success_response g.2 ("data:image/png;base64," ++ pyStrOf g.1)
                (upload_to_s3 g.1 style cfg.bucket s3) style
      | _ => error_response "imageData must be a string" 400
  | _ => error_response "Body must be an object" 400

/-- lambda_handler (lambda_function.py lines 13-154): event resolution then
the validated pipeline. -/
def lambda_handler (cfg : Config) (event : PyVal) (api : ApiOutcome) (s3 : S3Outcome) : Response :=
  match resolve_body event with
  | .error r => r
  | .ok body => handle_body cfg body api s3

/-- A well-formed generation API response whose first candidate carries one
inline image part with the given base64 data (used to exercise the handler at
concrete inputs). -/
def imageApiResponse (g : String) : PyVal :=
  .dict [("candidates", .list [.dict [("content", .dict [("parts", .list
    [.dict [("inlineData", .dict [("mimeType", .str "image/png"),
      ("data", .str g)])]])])]])]

/-! Helper lemmas about the character splitter. -/

theorem splitChar_ne_nil (sep : Char) (l : List Char) : splitChar sep l ≠ [] := by
  cases l with
  | nil => simp [splitChar]
  | cons c cs =>
    simp only [splitChar]
    split <;> simp

theorem splitChar_of_not_mem {sep : Char} {l : List Char} (h : sep ∉ l) :
    splitChar sep l = [l] := by
  induction l with
  | nil => rfl
  | cons c cs ih =>
    simp only [List.mem_cons, not_or] at h
    have h1 : c ≠ sep := fun hc => h.1 hc.symm
    simp [splitChar, ih h.2, h1]

theorem splitChar_append_sep (sep : Char) (l1 l2 : List Char) (h : sep ∉ l1) :
    splitChar sep (l1 ++ sep :: l2) = l1 :: splitChar sep l2 := by
  induction l1 with
  | nil => simp [splitChar]
  | cons c cs ih =>
    simp only [List.mem_cons, not_or] at h
    have h1 : c ≠ sep := fun hc => h.1 hc.symm
    simp [splitChar, ih h.2, h1]

theorem length_splitChar (sep : Char) (l : List Char) :
    (splitChar sep l).length = countChar sep l + 1 := by
  induction l with
  | nil => rfl
  | cons c cs ih =>
    cases hsp : splitChar sep cs with
    | nil => exact absurd hsp (splitChar_ne_nil sep cs)
    | cons a as =>
      rw [hsp] at ih
      simp only [List.length_cons] at ih
      by_cases hc : c = sep <;> simp [splitChar, countChar, hc, hsp] <;> omega

theorem decode_image_error {s : String} {r : Response}
    (h : decode_image s = .error r) :
    r = error_response "Invalid data URL format" 400 := by
  simp only [decode_image] at h
  split at h
  · split at h
    · cases h
    · cases h
      rfl
  · cases h

theorem isPrefixOf_append (l r : List Char) : l.isPrefixOf (l ++ r) = true := by
  induction l with
  | nil => simp [List.isPrefixOf]
  | cons a as ih => simp [List.isPrefixOf, ih]

theorem pyStartsWith_append (p rest : String) : pyStartsWith (p ++ rest) p = true := by
  simp only [pyStartsWith, String.toList, String.data_append]
  exact isPrefixOf_append _ _

/-- C2 counterexample: the decoder rejects a data-URL string that does contain
a comma, refuting that InvalidDataUrl occurs exactly when the string contains
no comma (and that the payload would be everything after the first comma). -/
theorem C2_counterexample :
    decode_image "data:image/png;base64,AA,BB" =
      .error (error_response "Invalid data URL format" 400) ∧
    ',' ∈ "data:image/png;base64,AA,BB".toList :=
  ⟨rfl, by decide⟩

/-- C2 amended: for an imageData string with the data:image marker, the code
splits on every comma; it fails with InvalidDataUrl exactly when the number of
commas differs from one, and with exactly one comma the working payload is the
part after that comma. -/
theorem C2_amended :
    (∀ s : String, pyStartsWith s "data:image" = true → countChar ',' s.toList ≠ 1 →
      decode_image s = .error (error_response "Invalid data URL format" 400)) ∧
    (∀ pre post : String, pyStartsWith (pre ++ "," ++ post) "data:image" = true →
      ',' ∉ pre.toList → ',' ∉ post.toList →
      ∃ mt, decode_image (pre ++ "," ++ post) = .ok (mt, post)) := by
  constructor
  · intro s hs hcount
    have hlen : ¬ (pySplit ',' s).length = 2 := by
      simp only [pySplit, List.length_map, length_splitChar]
      omega
    simp [decode_image, hs, hlen]
  · intro pre post hs hpre hpost
    have hdata : (pre ++ "," ++ post).toList = pre.toList ++ ',' :: post.toList := by
      simp [String.toList, String.data_append]
    have hsplit : pySplit ',' (pre ++ "," ++ post) = [pre, post] := by
      simp only [pySplit, hdata, splitChar_append_sep ',' pre.toList post.toList hpre,
        splitChar_of_not_mem hpost, List.map_cons, List.map_nil]
      rfl
    refine ⟨(pySplit ':' ((pySplit ';' (pre ++ "," ++ post)).headD "")).getD 1 "", ?_⟩
    simp [decode_image, hs, hsplit]

/-- C2 amended, exercised: the string data:image/png;base64,QUJDRA has one
comma and decodes with payload QUJDRA; adding a second comma is rejected. -/
theorem C2_witness :
    decode_image ("data:image/png;base64" ++ "," ++ "QUJDRA") =
      .ok ("image/png", "QUJDRA") ∧
    decode_image "data:image/a,b,c" =
      .error (error_response "Invalid data URL format" 400) := by
  constructor
  · obtain ⟨mt, hmt⟩ :=
      C2_amended.2 "data:image/png;base64" "QUJDRA" (by decide) (by decide) (by decide)
    have : mt = "image/png" := by
      have := hmt.symm.trans (rfl : decode_image ("data:image/png;base64" ++ "," ++ "QUJDRA") =
        .ok ("image/png", "QUJDRA"))
      cases this
      rfl
    rw [this] at hmt
    exact hmt
  · exact C2_amended.1 "data:image/a,b,c" (by decide) (by decide)

/-- C3 counterexample: the accepted input data:image,0123456789 yields a
mimeType containing no slash at all, refuting the image/subtype invariant. -/
theorem C3_counterexample :
    decode_image "data:image,0123456789" = .ok ("image,0123456789", "0123456789") ∧
    '/' ∉ "image,0123456789".toList :=
  ⟨rfl, by decide⟩

/-- C3 amended: without the data:image marker the mimeType is exactly
image/png with the payload unchanged; with a well-formed data URL prefix
data:image/sub;...,payload the mimeType is image/sub; degenerate accepted
inputs (no semicolon in the prefix) can produce a mimeType not of the form
image/subtype. -/
theorem C3_amended :
    (∀ s : String, pyStartsWith s "data:image" = false →
      decode_image s = .ok ("image/png", s)) ∧
    (∀ sub payload : String, ',' ∉ sub.toList → ';' ∉ sub.toList → ':' ∉ sub.toList →
      ',' ∉ payload.toList →
      decode_image ("data:image/" ++ sub ++ ";base64," ++ payload) =
        .ok ("image/" ++ sub, payload)) := by
  constructor
  · intro s hs
    simp [decode_image, hs]
  · intro sub payload hc hsemi hcolon hpc
    have hs : pyStartsWith ("data:image/" ++ sub ++ ";base64," ++ payload) "data:image" = true := by
      simp only [pyStartsWith, String.toList, String.data_append]
      rw [show (['d', 'a', 't', 'a', ':', 'i', 'm', 'a', 'g', 'e', '/'] : List Char) =
          ['d', 'a', 't', 'a', ':', 'i', 'm', 'a', 'g', 'e'] ++ ['/'] from rfl]
      simp only [List.append_assoc]
      exact isPrefixOf_append _ _
    have hnc : ',' ∉ ("data:image/" ++ sub ++ ";base64").toList := by
      simp only [String.toList, String.data_append, List.mem_append]
      rintro ((h1 | h2) | h3)
      · exact absurd h1 (by decide)
      · exact hc h2
      · exact absurd h3 (by decide)
    have hdata : ("data:image/" ++ sub ++ ";base64," ++ payload).toList =
        ("data:image/" ++ sub ++ ";base64").toList ++ ',' :: payload.toList := by
      rw [show (";base64," : String) = ";base64" ++ "," from rfl]
      simp [String.toList, String.data_append]
    have hsplitComma : pySplit ',' ("data:image/" ++ sub ++ ";base64," ++ payload) =
        ["data:image/" ++ sub ++ ";base64", payload] := by
      simp only [pySplit, hdata,
        splitChar_append_sep ',' _ _ hnc, splitChar_of_not_mem hpc,
        List.map_cons, List.map_nil]
      rfl
    have hnsemi : ';' ∉ ("data:image/" ++ sub).toList := by
      simp only [String.toList, String.data_append, List.mem_append]
      rintro (h1 | h2)
      · exact absurd h1 (by decide)
      · exact hsemi h2
    have hdataSemi : ("data:image/" ++ sub ++ ";base64," ++ payload).toList =
        ("data:image/" ++ sub).toList ++ ';' :: ("base64," ++ payload).toList := by
      rw [show (";base64," : String) = ";" ++ "base64," from rfl]
      simp [String.toList, String.data_append]
    have hsemiHead : (pySplit ';' ("data:image/" ++ sub ++ ";base64," ++ payload)).head? =
        some ("data:image/" ++ sub) := by
      simp only [pySplit, hdataSemi, splitChar_append_sep ';' _ _ hnsemi, List.map_cons,
        List.head?_cons]
      rfl
    have hncolon : ':' ∉ ("image/" ++ sub).toList := by
      simp only [String.toList, String.data_append, List.mem_append]
      rintro (h1 | h2)
      · exact absurd h1 (by decide)
      · exact hcolon h2
    have hdataColon : ("data:image/" ++ sub).toList =
        ("data" : String).toList ++ ':' :: ("image/" ++ sub).toList := by
      rw [show ("data:image/" : String) = "data" ++ (":" ++ "image/") from rfl]
      simp [String.toList, String.data_append]
    have hcolonSplit : pySplit ':' ("data:image/" ++ sub) = ["data", "image/" ++ sub] := by
      simp only [pySplit, hdataColon,
        splitChar_append_sep ':' (("data" : String).toList) (("image/" ++ sub).toList)
          (by decide),
        splitChar_of_not_mem hncolon, List.map_cons, List.map_nil]
      rfl
    simp [decode_image, hs, hsplitComma, hsemiHead, hcolonSplit]

/-- C3 amended, exercised: a bare payload defaults to image/png unchanged, and
a well-formed jpeg data URL yields mimeType image/jpeg. -/
theorem C3_witness :
    decode_image "QUJDRDEyMzQ1" = .ok ("image/png", "QUJDRDEyMzQ1") ∧
    decode_image ("data:image/" ++ "jpeg" ++ ";base64," ++ "QUJDRA") =
      .ok ("image/" ++ "jpeg", "QUJDRA") :=
  ⟨C3_amended.1 "QUJDRDEyMzQ1" (by decide),
   C3_amended.2 "jpeg" "QUJDRA" (by decide) (by decide) (by decide) (by decide)⟩

/-- C4 counterexample: the empty string has length under 10 yet is rejected
with the EmptyImageData message, not ImageTooShort, because the falsiness
check runs first. -/
theorem C4_counterexample :
    lambda_handler ⟨some "testkey", Option.none⟩
      (.dict [("imageData", .str ""), ("style", .str "anime")]) .httpError .failure =
      error_response "No image data provided" 400 ∧
    ("" : String).length < 10 :=
  ⟨rfl, by decide⟩

/-- C4 amended: with the API key configured, every request whose imageData is
a nonempty string of length under 10 is rejected with ImageTooShort
(400, imageData is too short), regardless of the style value. -/
theorem C4_amended (key : String) (hk : key ≠ "") (bucket : Option String)
    (event : PyVal) (bkvs : List (String × PyVal)) (api : ApiOutcome) (s3 : S3Outcome)
    (s : String) (hres : resolve_body event = .ok (.dict bkvs))
    (hid : pyDictGet bkvs "imageData" = some (.str s))
    (hne : s ≠ "") (hlen : s.length < 10) :
    lambda_handler ⟨some key, bucket⟩ event api s3 =
      error_response "imageData is too short" 400 := by
  simp only [lambda_handler, hres]
  simp only [handle_body, hid, Option.getD_some]
  simp [pyTruthy, pyLen, apiKeyTruthy, hk, hne, hlen]

/-- C4 amended, exercised at a five-character imageData with a non-string
style value. -/
theorem C4_witness :
    lambda_handler ⟨some "k", Option.none⟩
      (.dict [("imageData", .str "short"), ("style", .int 5)]) .httpError .failure =
      error_response "imageData is too short" 400 :=
  C4_amended "k" (by decide) Option.none _ _ .httpError .failure "short" rfl rfl
    (by decide) (by decide)

/-- C1 counterexample: with the API key absent and a malformed JSON body, the
handler returns a 400 (invalid JSON), not the claimed 500 MissingConfiguration
envelope, because the envelope is processed before the key check. -/
theorem C1_counterexample :
    (lambda_handler ⟨Option.none, Option.none⟩
      (.dict [("body", .str (String.singleton lbrace))]) .httpError .failure).statusCode
      = 400 :=
  rfl

/-- C1 amended: with the API key absent, the 500 MissingConfiguration envelope
is returned for every invocation whose envelope successfully normalizes to a
dict body and whose imageData value survives the diagnostic length log (it is
falsy or sized); the key check precedes all imageData validation but follows
envelope normalization, so envelope malformation yields a 400 first. -/
theorem C1_amended (bucket : Option String) (event : PyVal) (bkvs : List (String × PyVal))
    (api : ApiOutcome) (s3 : S3Outcome)
    (hres : resolve_body event = .ok (.dict bkvs))
    (hlen : pyTruthy ((pyDictGet bkvs "imageData").getD .none) = false ∨
      ((pyLen ((pyDictGet bkvs "imageData").getD .none)).isNone = false)) :
    lambda_handler ⟨Option.none, bucket⟩ event api s3 =
      error_response "GEMINI_API_KEY not configured" 500 := by
  simp only [lambda_handler, hres, handle_body]
  rcases hlen with h | h <;> simp [h, apiKeyTruthy]

/-- C1 amended, exercised: the key being absent wins over an imageData that is
malformed (a one-character string, far too short). -/
theorem C1_witness :
    lambda_handler ⟨Option.none, Option.none⟩ (.dict [("imageData", .str "x")])
      .httpError .failure = error_response "GEMINI_API_KEY not configured" 500 :=
  C1_amended Option.none _ _ .httpError .failure rfl (Or.inr rfl)

/-- C5: the three supported envelope shapes carrying the same logical content
(a JSON string body that parses to the content, the content as a structured
body, and the content as the event itself) resolve to the identical body and
make the whole pipeline produce the identical response. -/
theorem C5_envelope_equiv (cfg : Config) (api : ApiOutcome) (s3 : S3Outcome)
    (iv sv : PyVal) (s : String)
    (hparse : jsonLoads s = .ok (.dict [("imageData", iv), ("style", sv)])) :
    (resolve_body (.dict [("body", .str s)]) =
        .ok (.dict [("imageData", iv), ("style", sv)]) ∧
      resolve_body (.dict [("body", .dict [("imageData", iv), ("style", sv)])]) =
        .ok (.dict [("imageData", iv), ("style", sv)]) ∧
      resolve_body (.dict [("imageData", iv), ("style", sv)]) =
        .ok (.dict [("imageData", iv), ("style", sv)])) ∧
    lambda_handler cfg (.dict [("body", .str s)]) api s3 =
      lambda_handler cfg (.dict [("imageData", iv), ("style", sv)]) api s3 ∧
    lambda_handler cfg (.dict [("body", .dict [("imageData", iv), ("style", sv)])]) api s3 =
      lambda_handler cfg (.dict [("imageData", iv), ("style", sv)]) api s3 := by
  have h1 : resolve_body (.dict [("body", .str s)]) =
      .ok (.dict [("imageData", iv), ("style", sv)]) := by
    have hstep : resolve_body (.dict [("body", .str s)]) =
        match jsonLoads s with
        | .ok b => .ok b
        | .error e => .error (error_response ("Invalid JSON: " ++ e) 400) := rfl
    rw [hstep, hparse]
  have h2 : resolve_body (.dict [("body", .dict [("imageData", iv), ("style", sv)])]) =
      .ok (.dict [("imageData", iv), ("style", sv)]) := rfl
  have h3 : resolve_body (.dict [("imageData", iv), ("style", sv)]) =
      .ok (.dict [("imageData", iv), ("style", sv)]) := rfl
  refine ⟨⟨h1, h2, h3⟩, ?_, ?_⟩
  · simp only [lambda_handler, h1, h3]
  · simp only [lambda_handler, h2, h3]

/-- C5, exercised on the content imageData 0123456789, style anime, carried by
a concrete JSON string body and by a bare event. -/
theorem C5_witness :
    lambda_handler ⟨some "k", Option.none⟩
      (.dict [("body", .str (String.singleton lbrace ++
        "\"imageData\": \"0123456789\", \"style\": \"anime\"" ++ String.singleton rbrace))])
      .httpError .failure =
    lambda_handler ⟨some "k", Option.none⟩
      (.dict [("imageData", .str "0123456789"), ("style", .str "anime")])
      .httpError .failure :=
  (C5_envelope_equiv ⟨some "k", Option.none⟩ .httpError .failure
    (.str "0123456789") (.str "anime") _ (by rfl)).2.1

theorem handle_body_valid (key : String) (hk : key ≠ "") (bucket : Option String)
    (s : String) (h10 : ¬ s.length < 10) (mt payload : String)
    (hdec : decode_image s = .ok (mt, payload)) (style : PyVal)
    (api : ApiOutcome) (s3 : S3Outcome) :
    handle_body ⟨some key, bucket⟩ (.dict [("imageData", .str s), ("style", style)]) api s3 =
      if !pyTruthy (generate_image_from_sketch key payload style mt api).1 then
        error_response "Failed to generate image" 500
      else
        success_response (generate_image_from_sketch key payload style mt api).2
          ("data:image/png;base64," ++
            pyStrOf (generate_image_from_sketch key payload style mt api).1)
          (upload_to_s3 (generate_image_from_sketch key payload style mt api).1 style bucket s3)
          style := by
  have hne : s ≠ "" := by
    intro hh
    apply h10
    rw [hh]
    decide
  have hA : pyDictGet [("imageData", PyVal.str s), ("style", style)] "imageData" =
      some (.str s) := rfl
  have hB : pyDictGet [("imageData", PyVal.str s), ("style", style)] "style" = some style := rfl
  simp [handle_body, hA, hB, pyTruthy, pyLen, apiKeyTruthy, hk, hne, h10, hdec]

theorem handler_success_path (key : String) (hk : key ≠ "") (bucket : Option String)
    (sdata : String) (h10 : ¬ sdata.length < 10) (mt payload : String)
    (hdec : decode_image sdata = .ok (mt, payload))
    (styleS : String) (data : PyVal) (g : String) (hg : g ≠ "")
    (hscan : scanResponse data = .ok (some (.str g))) (s3 : S3Outcome) :
    lambda_handler ⟨some key, bucket⟩
      (.dict [("imageData", .str sdata), ("style", .str styleS)]) (.ok data) s3 =
    success_response
      (generate_image_from_sketch key payload (.str styleS) mt (.ok data)).2
      ("data:image/png;base64," ++ g)
      (upload_to_s3 (.str g) (.str styleS) bucket s3) (.str styleS) := by
  have hred : lambda_handler ⟨some key, bucket⟩
      (.dict [("imageData", .str sdata), ("style", .str styleS)]) (.ok data) s3 =
      handle_body ⟨some key, bucket⟩
        (.dict [("imageData", .str sdata), ("style", .str styleS)]) (.ok data) s3 := rfl
  rw [hred, handle_body_valid key hk bucket sdata h10 mt payload hdec (.str styleS)
    (.ok data) s3]
  have hgen1 : (generate_image_from_sketch key payload (.str styleS) mt (.ok data)).1 =
      .str g := by
    simp only [generate_image_from_sketch, styleDesc, hscan]
  rw [hgen1]
  simp [pyTruthy, hg, pyStrOf]

/-- C6: on every successful request the success envelope body carries an
imageBase64 field equal to the literal data:image/png;base64, followed by
exactly the base64 string extracted from the API response, unmodified,
whatever the declared input MIME type was. -/
theorem C6_roundtrip (key : String) (hk : key ≠ "") (bucket : Option String)
    (sdata : String) (h10 : ¬ sdata.length < 10) (mt payload : String)
    (hdec : decode_image sdata = .ok (mt, payload))
    (styleS : String) (data : PyVal) (g : String) (hg : g ≠ "")
    (hscan : scanResponse data = .ok (some (.str g))) (s3 : S3Outcome) :
    lambda_handler ⟨some key, bucket⟩
      (.dict [("imageData", .str sdata), ("style", .str styleS)]) (.ok data) s3 =
    success_response
      (generate_image_from_sketch key payload (.str styleS) mt (.ok data)).2
      ("data:image/png;base64," ++ g)
      (upload_to_s3 (.str g) (.str styleS) bucket s3) (.str styleS) :=
  handler_success_path key hk bucket sdata h10 mt payload hdec styleS data g hg hscan s3

/-- C6, exercised: a jpeg input data URL still yields an imageBase64 field of
data:image/png;base64,GENB64 when the API returns GENB64. -/
theorem C6_witness :
    lambda_handler ⟨some "k", some "bkt"⟩
      (.dict [("imageData", .str "data:image/jpeg;base64,AAAA"), ("style", .str "anime")])
      (.ok (imageApiResponse "GENB64")) (.ok "https://presigned") =
    success_response
      (generate_image_from_sketch "k" "AAAA" (.str "anime") "image/jpeg"
        (.ok (imageApiResponse "GENB64"))).2
      ("data:image/png;base64," ++ "GENB64")
      (upload_to_s3 (.str "GENB64") (.str "anime") (some "bkt") (.ok "https://presigned"))
      (.str "anime") :=
  C6_roundtrip "k" (by decide) (some "bkt") "data:image/jpeg;base64,AAAA" (by decide)
    "image/jpeg" "AAAA" rfl "anime" (imageApiResponse "GENB64") "GENB64" (by decide) rfl
    (.ok "https://presigned")

/-- C7: when the parsed API response yields no candidates or no image-typed
part with truthy data, the handler returns the fixed 500 envelope with message
Failed to generate image, whose body is a constant that carries no prompt
text. -/
theorem C7_soft_failure (key : String) (hk : key ≠ "") (bucket : Option String)
    (sdata : String) (h10 : ¬ sdata.length < 10) (mt payload : String)
    (hdec : decode_image sdata = .ok (mt, payload))
    (style : PyVal) (data : PyVal)
    (hscan : scanResponse data = .ok Option.none) (s3 : S3Outcome) :
    lambda_handler ⟨some key, bucket⟩
      (.dict [("imageData", .str sdata), ("style", style)]) (.ok data) s3 =
      error_response "Failed to generate image" 500 ∧
    (error_response "Failed to generate image" 500).body =
      String.singleton lbrace ++
        "\"success\": false, \"error\": \"Failed to generate image\"" ++
        String.singleton rbrace := by
  constructor
  · have hred : lambda_handler ⟨some key, bucket⟩
        (.dict [("imageData", .str sdata), ("style", style)]) (.ok data) s3 =
        handle_body ⟨some key, bucket⟩
          (.dict [("imageData", .str sdata), ("style", style)]) (.ok data) s3 := rfl
    rw [hred, handle_body_valid key hk bucket sdata h10 mt payload hdec style (.ok data) s3]
    cases hsd : styleDesc style with
    | error e =>
      have hgen : generate_image_from_sketch key payload style mt (.ok data) = (.none, "") := by
        simp only [generate_image_from_sketch, hsd]
      rw [hgen]
      simp [pyTruthy]
    | ok d =>
      have hgen1 : (generate_image_from_sketch key payload style mt (.ok data)).1 = .none := by
        simp only [generate_image_from_sketch, hsd, hscan]
      rw [hgen1]
      simp [pyTruthy]
  · rfl

/-- C7, exercised on a response with an empty candidates list. -/
theorem C7_witness :
    lambda_handler ⟨some "k", Option.none⟩
      (.dict [("imageData", .str "0123456789"), ("style", .str "realistic")])
      (.ok (.dict [("candidates", .list [])])) .failure =
      error_response "Failed to generate image" 500 :=
  (C7_soft_failure "k" (by decide) Option.none "0123456789" (by decide)
    "image/png" "0123456789" rfl (.str "realistic") (.dict [("candidates", .list [])])
    rfl .failure).1

/-- C8: with a generated image in hand, an unconfigured bucket or a failing
upload still produces the 200 success envelope with a null s3Url, and the
status code is 200 whatever the storage outcome. -/
theorem C8_storage_absorbed (key : String) (hk : key ≠ "") (bucket : Option String)
    (sdata : String) (h10 : ¬ sdata.length < 10) (mt payload : String)
    (hdec : decode_image sdata = .ok (mt, payload))
    (styleS : String) (data : PyVal) (g : String) (hg : g ≠ "")
    (hscan : scanResponse data = .ok (some (.str g))) (s3 : S3Outcome)
    (hbs : bucket = Option.none ∨ bucket = some "" ∨ s3 = S3Outcome.failure) :
    lambda_handler ⟨some key, bucket⟩
      (.dict [("imageData", .str sdata), ("style", .str styleS)]) (.ok data) s3 =
    success_response
      (generate_image_from_sketch key payload (.str styleS) mt (.ok data)).2
      ("data:image/png;base64," ++ g) Option.none (.str styleS) ∧
    ∀ s3x : S3Outcome,
      (lambda_handler ⟨some key, bucket⟩
        (.dict [("imageData", .str sdata), ("style", .str styleS)])
        (.ok data) s3x).statusCode = 200 := by
  have hup : upload_to_s3 (.str g) (.str styleS) bucket s3 = Option.none := by
    rcases hbs with h | h | h
    · simp [upload_to_s3, h]
    · simp [upload_to_s3, h]
    · cases bucket with
      | none => simp [upload_to_s3]
      | some b => simp [upload_to_s3, h]
  constructor
  · rw [handler_success_path key hk bucket sdata h10 mt payload hdec styleS data g hg
      hscan s3, hup]
  · intro s3x
    rw [handler_success_path key hk bucket sdata h10 mt payload hdec styleS data g hg
      hscan s3x]
    rfl

/-- C8, exercised: no bucket configured, upload skipped, still a success
envelope with a null s3Url. -/
theorem C8_witness :
    lambda_handler ⟨some "k", Option.none⟩
      (.dict [("imageData", .str "0123456789"), ("style", .str "anime")])
      (.ok (imageApiResponse "G1")) .failure =
    success_response
      (generate_image_from_sketch "k" "0123456789" (.str "anime") "image/png"
        (.ok (imageApiResponse "G1"))).2
      ("data:image/png;base64," ++ "G1") Option.none (.str "anime") :=
  (C8_storage_absorbed "k" (by decide) Option.none "0123456789" (by decide)
    "image/png" "0123456789" rfl "anime" (imageApiResponse "G1") "G1" (by decide) rfl
    .failure (Or.inl rfl)).1

/-- C9: a style string outside the ten-entry table never fails prompt
construction; it maps to the generic phrase inside the fixed template and
generation proceeds, succeeding whenever the API response carries an image. -/
theorem C9_unknown_style (s : String)
    (h : s ∉ ["realistic", "anime", "cartoon", "oil-painting", "watercolor", "sketch",
      "3d-render", "pixel-art", "cyberpunk", "fantasy"]) :
    styleDesc (.str s) = .ok "high quality artistic style" ∧
    ∀ (key sketch mime : String) (data img : PyVal),
      scanResponse data = .ok (some img) →
      generate_image_from_sketch key sketch (.str s) mime (.ok data) =
        (img, "Transform this sketch into a beautiful image, high quality artistic style, masterpiece quality, professional artwork") := by
  simp only [List.mem_cons, List.not_mem_nil, or_false, not_or] at h
  obtain ⟨h1, h2, h3, h4, h5, h6, h7, h8, h9, h10⟩ := h
  have hlk : style_prompts.lookup s = Option.none := by
    simp [style_prompts, List.lookup, beq_false_of_ne h1, beq_false_of_ne h2,
      beq_false_of_ne h3, beq_false_of_ne h4, beq_false_of_ne h5, beq_false_of_ne h6,
      beq_false_of_ne h7, beq_false_of_ne h8, beq_false_of_ne h9, beq_false_of_ne h10]
  have hdesc : styleDesc (.str s) = .ok "high quality artistic style" := by
    simp [styleDesc, hlk]
  refine ⟨hdesc, ?_⟩
  intro key sketch mime data img hscan
  simp only [generate_image_from_sketch, hdesc, hscan]
  rfl

/-- C9, exercised on the unknown style impressionist from the spec. -/
theorem C9_witness :
    styleDesc (.str "impressionist") = .ok "high quality artistic style" ∧
    generate_image_from_sketch "k" "0123456789" (.str "impressionist") "image/png"
      (.ok (imageApiResponse "G1")) =
      (.str "G1", "Transform this sketch into a beautiful image, high quality artistic style, masterpiece quality, professional artwork") :=
  ⟨(C9_unknown_style "impressionist" (by decide)).1,
   (C9_unknown_style "impressionist" (by decide)).2 "k" "0123456789" "image/png"
     (imageApiResponse "G1") (.str "G1") rfl⟩

/-- C10: a present but falsy non-string imageData value yields the
EmptyImageData error (400, No image data provided), and the InvalidImageType
error (400, imageData must be a string) is reachable only when the imageData
value is truthy and not a string: the emptiness check strictly precedes the
type check. -/
theorem C10_validation_order :
    (∀ (key : String), key ≠ "" → ∀ (bucket : Option String) (event : PyVal)
      (bkvs : List (String × PyVal)) (api : ApiOutcome) (s3 : S3Outcome) (v : PyVal),
      resolve_body event = .ok (.dict bkvs) →
      pyDictGet bkvs "imageData" = some v →
      pyTruthy v = false → (∀ s, v ≠ .str s) →
      lambda_handler ⟨some key, bucket⟩ event api s3 =
        error_response "No image data provided" 400) ∧
    (∀ (key : String) (bucket : Option String) (event : PyVal)
      (bkvs : List (String × PyVal)) (api : ApiOutcome) (s3 : S3Outcome),
      resolve_body event = .ok (.dict bkvs) →
      lambda_handler ⟨some key, bucket⟩ event api s3 =
        error_response "imageData must be a string" 400 →
      pyTruthy ((pyDictGet bkvs "imageData").getD .none) = true ∧
      ∀ s, (pyDictGet bkvs "imageData").getD .none ≠ .str s) := by
  constructor
  · intro key hk bucket event bkvs api s3 v hres hid hfalsy hnstr
    simp only [lambda_handler, hres]
    simp only [handle_body, hid, Option.getD_some]
    simp [hfalsy, apiKeyTruthy, hk]
  · intro key bucket event bkvs api s3 hres heq
    have hred : lambda_handler ⟨some key, bucket⟩ event api s3 =
        handle_body ⟨some key, bucket⟩ (.dict bkvs) api s3 := by
      simp only [lambda_handler, hres]
    obtain ⟨v, hv⟩ : ∃ v, (pyDictGet bkvs "imageData").getD .none = v := ⟨_, rfl⟩
    rw [hv]
    by_cases ht : pyTruthy v = true
    · cases v with
      | str s =>
        exfalso
        rw [hred] at heq
        simp only [handle_body] at heq
        rw [hv] at heq
        have hsne : s ≠ "" := by simpa [pyTruthy] using ht
        cases hak : apiKeyTruthy (some key) with
        | false =>
          simp [hak, pyLen] at heq
          exact absurd heq (by decide)
        | true =>
          simp [hak, pyLen, pyTruthy, hsne] at heq
          split at heq
          · exact absurd heq (by decide)
          · split at heq
            next r hdec =>
              rw [decode_image_error hdec] at heq
              exact absurd heq (by decide)
            next mt2 pl2 hdec =>
              split at heq
              · exact absurd heq (by decide)
              · exact absurd (show (200 : Nat) = 400 from congrArg Response.statusCode heq)
                  (by decide)
      | none => simp [pyTruthy] at ht
      | bool b => exact ⟨ht, fun s hs => PyVal.noConfusion hs⟩
      | int n => exact ⟨ht, fun s hs => PyVal.noConfusion hs⟩
      | list xs => exact ⟨ht, fun s hs => PyVal.noConfusion hs⟩
      | dict kvs2 => exact ⟨ht, fun s hs => PyVal.noConfusion hs⟩
    · exfalso
      have htf : pyTruthy v = false := by
        cases hpt : pyTruthy v
        · rfl
        · exact absurd hpt ht
      rw [hred] at heq
      simp only [handle_body] at heq
      rw [hv] at heq
      cases hak : apiKeyTruthy (some key) with
      | false =>
        simp [hak, htf] at heq
        exact absurd heq (by decide)
      | true =>
        simp [hak, htf] at heq
        exact absurd heq (by decide)

/-- C10, exercised: the falsy non-string value 0 gets the EmptyImageData
error, not InvalidImageType. -/
theorem C10_witness :
    lambda_handler ⟨some "k", Option.none⟩ (.dict [("imageData", .int 0)])
      .httpError .failure = error_response "No image data provided" 400 :=
  C10_validation_order.1 "k" (by decide) Option.none (.dict [("imageData", .int 0)])
    [("imageData", .int 0)] .httpError .failure (.int 0) rfl rfl rfl
    (fun s hs => PyVal.noConfusion hs)
